import Mathlib

/-!
Verification of the page-and-modal scraping traversal of the
`scrap_obamix` repository (files `scraper/list_scraper.py` and
`scraper/modal_scraper.py`), as a shallow embedding in Lean 4.

Strings are modelled as Lean `String`/`List Char`; Python `None`-able
values as `Option`; Python `dict` records as insertion-ordered association
lists; `decimal.Decimal` as an exact mantissa/exponent pair; raised
exceptions as `Except String`.  DOM access is modelled by page-state
structures holding exactly the texts and attributes the code reads.
-/

namespace ScrapObamix

/-! ### Python string primitives -/

/-- Whitespace recognised by Python `str.strip()` / the regex class `\s`,
restricted to the code points that can occur in this scraper's inputs
(ASCII whitespace and the no-break space `\xa0`). -/
def pyIsSpace (c : Char) : Bool :=
  c = ' ' || c = '\t' || c = '\n' || c = '\r' || c = '\u000B' || c = '\u000C' || c = '\u00A0'

/-- ASCII decimal digit, modelling the regex class `\d` and `str.isdigit`
on the ASCII range used by the site. -/
def isDig (c : Char) : Bool :=
  48 ≤ c.toNat && c.toNat ≤ 57

/-- Python `str.strip()` on a character list. -/
def pyStripL (cs : List Char) : List Char :=
  ((cs.dropWhile pyIsSpace).reverse.dropWhile pyIsSpace).reverse

/-- Python `str.strip()`. -/
def pyStrip (s : String) : String :=
  String.mk (pyStripL s.data)

/-- Python `str.lower()` (ASCII case fold, sufficient for the inputs read). -/
def pyLower (s : String) : String :=
  String.mk (s.data.map Char.toLower)

/-- Single pass, left-to-right removal of every occurrence of the
two-character pattern `a b`, i.e. Python `str.replace(ab, "")` for a
two-character search string. -/
def removePair (a b : Char) : List Char → List Char
  | [] => []
  | [c] => [c]
  | c :: d :: rest =>
    if c = a ∧ d = b then removePair a b rest
    else c :: removePair a b (d :: rest)

/-- Single pass, left-to-right removal of every occurrence of a non-empty
`pat`, i.e. Python `str.replace(pat, "")`; `fuel` bounds the scan and is
instantiated with the input length, which one removal step per character
can never exhaust. -/
def removeSubG (pat : List Char) : Nat → List Char → List Char
  | 0, cs => cs
  | _ + 1, [] => []
  | fuel + 1, c :: rest =>
    if pat ≠ [] ∧ pat.isPrefixOf (c :: rest) then
      removeSubG pat fuel (rest.drop (pat.length - 1))
    else c :: removeSubG pat fuel rest

/-- Python `str.replace(pat, "")` for a non-empty `pat`. -/
def removeSubstr (pat cs : List Char) : List Char :=
  removeSubG pat cs.length cs

/-- Python substring containment `needle in hay` (for `"hidden" in class_attr`). -/
def listContainsSub (needle hay : List Char) : Bool :=
  hay.tails.any (fun t => needle.isPrefixOf t)

/-- Python `str.splitlines()` on a character list (`\n`, `\r\n` and `\r`
line breaks; no trailing empty line for a trailing break). -/
def pySplitlinesL : List Char → List (List Char)
  | [] => []
  | cs => splitGo [] cs
where
  splitGo (cur : List Char) : List Char → List (List Char)
    | [] => [cur.reverse]
    | '\r' :: '\n' :: rest =>
      cur.reverse :: (if rest.isEmpty then [] else splitGo [] rest)
    | '\n' :: rest =>
      cur.reverse :: (if rest.isEmpty then [] else splitGo [] rest)
    | '\r' :: rest =>
      cur.reverse :: (if rest.isEmpty then [] else splitGo [] rest)
    | c :: rest => splitGo (c :: cur) rest

/-- Python `str.splitlines()`. -/
def pySplitlines (s : String) : List String :=
  (pySplitlinesL s.data).map String.mk

/-- Python truthiness of an optional string (`None` and `""` are falsy). -/
def pyTruthy : Option String → Bool
  | Option.none => false
  | some s => s ≠ ""

/-- Python `a or dflt` for an optional string `a` (first operand kept when
truthy, otherwise the default). -/
def pyOrS (a : Option String) (dflt : String) : String :=
  match a with
  | Option.none => dflt
  | some s => if s = "" then dflt else s

/-- Python `int(...)` of a non-empty all-digit token. -/
def digitsToNat (l : List Char) : Nat :=
  l.foldl (fun n c => n * 10 + (c.toNat - 48)) 0

/-! ### The quantity parser

`_parse_quantity` appears twice, with identical text, in
`scraper/modal_scraper.py` (lines 156-169) and `scraper/list_scraper.py`
(lines 176-190); this definition embeds both copies.  The regex
`\d{1,3}(?:[.\s]\d{3})+|\d+` is embedded as an explicit leftmost matcher
with Python's greedy/backtracking semantics. -/

/-- Clamp applied by `_parse_quantity` (`QTY_MAX` in both scraper files). -/
def QTY_MAX : Nat := 1000000

/-- The regex class `[.\s]` (thousands separator). -/
def isSep (c : Char) : Bool :=
  c = '.' || pyIsSpace c

/-- Greedy match of `(?:[.\s]\d{3})+` at the head of the input: returns the
matched characters, requiring at least one separator-plus-three-digits
group.  Nothing follows the group in the pattern, so greediness needs no
backtracking. -/
def matchGroups : List Char → Option (List Char)
  | s :: a :: b :: c :: rest =>
    if isSep s && isDig a && isDig b && isDig c then
      match matchGroups rest with
      | some m => some (s :: a :: b :: c :: m)
      | Option.none => some [s, a, b, c]
    else Option.none
  | _ => Option.none

/-- Try `\d{1,3}(?:[.\s]\d{3})+` at the head of the input taking `k`
leading digits, backtracking from the greediest `k` downwards. -/
def tryK : Nat → List Char → Option (List Char)
  | 0, _ => Option.none
  | k + 1, cs =>
    match matchGroups (cs.drop (k + 1)) with
    | some m => some (cs.take (k + 1) ++ m)
    | Option.none => tryK k cs

/-- The alternative `\d{1,3}(?:[.\s]\d{3})+` matched at the head of the input. -/
def matchAlt1 (cs : List Char) : Option (List Char) :=
  tryK (min 3 (cs.takeWhile isDig).length) cs

/-- Both regex alternatives tried at the head of the input, first
alternative preferred (Python alternation order). -/
def matchAt (cs : List Char) : Option (List Char) :=
  match matchAlt1 cs with
  | some m => some m
  | Option.none =>
    let ds := cs.takeWhile isDig
    if ds.isEmpty then Option.none else some ds

/-- `re.search` for `\d{1,3}(?:[.\s]\d{3})+|\d+`: the leftmost match.
Both alternatives begin with `\d`, so the match starts at the first digit. -/
def reFirstMatch : List Char → Option (List Char)
  | [] => Option.none
  | c :: cs => if isDig c then matchAt (c :: cs) else reFirstMatch cs

/-- Lines 165-168 of `_parse_quantity`: `int` of the matched token's
digits, clamped by `min(value, limit)`; `None` when no digit remains. -/
def pqOfMatch (digitsOnly : List Char) : Option Nat :=
  if digitsOnly.isEmpty then Option.none
  else some (min (digitsToNat digitsOnly) QTY_MAX)

/-- Lines 162-169 of `_parse_quantity`: the regex search over the cleaned
text and the extraction from its match. -/
def pqAfterClean (cleaned : List Char) : Option Nat :=
  if cleaned.isEmpty then Option.none
  else
    match reFirstMatch cleaned with
    | Option.none => Option.none
    | some m => pqOfMatch (m.filter isDig)

/-- `_parse_quantity` on the character list of the raw text. -/
def parseQuantityL (cs : List Char) : Option Nat :=
  if cs.isEmpty then Option.none
  else pqAfterClean (pyStripL (cs.map fun c => if c = '\u00A0' then ' ' else c))

/-- `_parse_quantity(raw)` — `modal_scraper.py` lines 156-169 and
`list_scraper.py` lines 176-190; `None` and `""` inputs short-circuit to
`None` via `if not raw`. -/
def parse_quantity (raw : Option String) : Option Nat :=
  match raw with
  | Option.none => Option.none
  | some s => parseQuantityL s.data

example : parse_quantity (some "1.234 unidades") = some 1234 := by decide
example : parse_quantity (some "Quantidade: 0") = some 0 := by decide
example : parse_quantity (some "1.234.567.890") = some 1000000 := by decide
example : parse_quantity (some "12.34") = some 12 := by decide
example : parse_quantity (some "sem estoque") = Option.none := by decide

/-! ### The currency parser

`_parse_decimal` (`modal_scraper.py` lines 139-153) normalises the raw
text and hands it to `decimal.Decimal`.  A `Decimal` value is exact
decimal arithmetic, embedded here as a mantissa/exponent pair; the
`Decimal` constructor's finite-literal grammar (optional sign, digits
with optional fraction, optional exponent) is embedded, with the special
values (`NaN`/`Infinity`) omitted — on those inputs the embedding returns
`none` where CPython returns a non-finite object, a case no claim touches. -/

/-- Exact decimal value `mant * 10 ^ exp`. -/
structure Dec where
  mant : Int
  exp : Int
deriving DecidableEq, Repr

/-- The exact rational value of a `Dec`. -/
def Dec.toRat (d : Dec) : Rat :=
  (d.mant : Rat) * (10 : Rat) ^ d.exp

/-- Optional leading sign of a numeric literal. -/
def parseSign (cs : List Char) : Int × List Char :=
  match cs with
  | [] => (1, [])
  | c :: r => if c = '+' then (1, r) else if c = '-' then (-1, r) else (1, c :: r)

/-- Exponent suffix and end of input for a `Decimal` literal: `rest` must
be empty or `[eE][+-]?digits` with nothing following. -/
def parseExpAndFinish (sgn : Int) (digits : List Char) (fracLen : Nat)
    (rest : List Char) : Option Dec :=
  match rest with
  | [] => some ⟨sgn * (digitsToNat digits : Int), -(fracLen : Int)⟩
  | e :: r =>
    if e = 'e' ∨ e = 'E' then
      let (esgn, r1) := parseSign r
      let ed := r1.takeWhile isDig
      let r2 := r1.drop ed.length
      if ed.isEmpty ∨ ¬ r2.isEmpty then Option.none
      else some ⟨sgn * (digitsToNat digits : Int),
                 esgn * (digitsToNat ed : Int) - (fracLen : Int)⟩
    else Option.none

/-- The decimal-part and exponent grammar after the sign: digits with an
optional fraction, at least one digit overall, then an optional exponent
suffix. -/
def parseDecimalCore (sgn : Int) (r1 : List Char) : Option Dec :=
  match r1.drop (r1.takeWhile isDig).length with
  | '.' :: r3 =>
    if (r1.takeWhile isDig).isEmpty ∧ (r3.takeWhile isDig).isEmpty then
      Option.none
    else
      parseExpAndFinish sgn (r1.takeWhile isDig ++ r3.takeWhile isDig)
        (r3.takeWhile isDig).length (r3.drop (r3.takeWhile isDig).length)
  | _ =>
    if (r1.takeWhile isDig).isEmpty then Option.none
    else
      parseExpAndFinish sgn (r1.takeWhile isDig) 0
        (r1.drop (r1.takeWhile isDig).length)

/-- Finite-literal grammar of the `decimal.Decimal` constructor:
`[+-]? (digits [. digits?] | . digits) ([eE][+-]?digits)?`, whole input
consumed; anything else raises `InvalidOperation`, i.e. yields `none`. -/
def parseDecimalLit (cs : List Char) : Option Dec :=
  parseDecimalCore (parseSign cs).1 (parseSign cs).2

/-- The characters kept by the single-character removals of
`_parse_decimal` (everything except no-break space, `'.'` and `' '`). -/
def moneyKeep (c : Char) : Bool :=
  ¬ (c = '\u00A0' ∨ c = '.' ∨ c = ' ')

/-- The normalisation chain of `_parse_decimal`: remove `"R$"`, `"r$"`,
then every no-break space, `'.'` and `' '`, then turn `','` into `'.'`
(`modal_scraper.py` lines 142-149). -/
def normalizeMoney (cs : List Char) : List Char :=
  ((removePair 'r' '$' (removePair 'R' '$' cs)).filter moneyKeep).map
    (fun c => if c = ',' then '.' else c)

/-- `_parse_decimal(value)` — `modal_scraper.py` lines 139-153; `None`
and `""` short-circuit to `None` via `if not value`. -/
def parse_decimal (value : Option String) : Option Dec :=
  match value with
  | Option.none => Option.none
  | some s =>
    if s.data.isEmpty then Option.none
    else parseDecimalLit (normalizeMoney s.data)

example : parse_decimal (some "R$ 1.234,56") = some ⟨123456, -2⟩ := by decide
example : parse_decimal (some "R$ 1.234,56") = some ⟨123456, -2⟩ := by decide
example : parse_decimal (some "1.5") = some ⟨15, 0⟩ := by decide
example : parse_decimal (some "abc") = Option.none := by decide
example : parse_decimal (some "") = Option.none := by decide

/-! ### Records (Python dicts with string keys, insertion-ordered) -/

/-- A gallery entry built by `_collect_gallery` (`modal_scraper.py`
lines 272-298): the dict `{"url": .., "href": .., "is_main": ..,
"position": ..}`. -/
structure GalleryEntry where
  url : String
  href : String
  is_main : Bool
  position : Nat
deriving DecidableEq, Repr

/-- A Python value stored in a record field. -/
inductive PyVal where
  | none
  | str (s : String)
  | int (n : Int)
  | dec (d : Dec)
  | bool (b : Bool)
  | listStr (xs : List String)
  | listPair (xs : List (Option String × Option String))
  | listImg (xs : List GalleryEntry)
deriving DecidableEq, Repr

/-- A Python dict with string keys, kept in insertion order; keys built by
this development are unique. -/
abbrev Record := List (String × PyVal)

/-- `r[k]` / `r.get(k)`: value at the first occurrence of key `k`. -/
def lookupRec : Record → String → Option PyVal
  | [], _ => Option.none
  | p :: r, k => if p.1 = k then some p.2 else lookupRec r k

/-- `r[k] = v`: update the first occurrence of `k` in place, or append. -/
def dictInsert : Record → String → PyVal → Record
  | [], k, v => [(k, v)]
  | p :: r, k, v => if p.1 = k then (k, v) :: r else p :: dictInsert r k v

/-- `{**a, **b}`: keys of `a` in order (values overridden by `b` where
present), then the keys of `b` not in `a`, in order. -/
def dictMerge (a b : Record) : Record :=
  a.map (fun p => (p.1, (lookupRec b p.1).getD p.2)) ++
    b.filter (fun p => ¬ a.any (fun q => q.1 = p.1))

/-- Keys of a record, in order. -/
def recKeys (r : Record) : List String := r.map (fun p => p.1)

/-- `None` or a string, as stored in a record. -/
def optStr : Option String → PyVal
  | Option.none => PyVal.none
  | some s => PyVal.str s

/-- `s or None` for a string `s`. -/
def pyStrOrNone (s : String) : PyVal :=
  if s = "" then PyVal.none else PyVal.str s

/-- `None` or an exact decimal. -/
def optDec : Option Dec → PyVal
  | Option.none => PyVal.none
  | some d => PyVal.dec d

/-- `None` or an integer quantity. -/
def optNat : Option Nat → PyVal
  | Option.none => PyVal.none
  | some n => PyVal.int n

/-- `x or None` for an optional string (empty strings become `None`). -/
def optStrOrNone (x : Option String) : PyVal :=
  match x with
  | Option.none => PyVal.none
  | some s => pyStrOrNone s

/-! ### DOM element models

An element that may be absent is an `Option`; an attribute read with
`get_attribute` is an `Option String` (`none` when the attribute is
missing, in which case Selenium returns Python `None`). -/

/-- A badge-like element: visible text plus the `data-original-title` and
`title` attributes (the latter only read by `_collect_labeled_badges`). -/
structure BadgeEl where
  text : String
  titleAttr : Option String
  title2 : Option String
deriving DecidableEq, Repr

/-- A gallery thumbnail (`#modal-media img`): its `src` attribute and its
nearest ancestor `<a>` (`none` when the XPath lookup raises, `some h` when
it exists with `href` attribute `h`). -/
structure Thumb where
  src : Option String
  anchor : Option (Option String)
deriving DecidableEq, Repr

/-- A lazily-populated tab container, observed over poll steps: `items t`
are the texts of its `<li>` children and `rawText t` its text content at
poll step `t` (step 0 = the initial read); `inPane`/`hasTrigger` say
whether a `tab-pane` ancestor and an activation control exist.  The
container's presence does not change while the overlay is open. -/
structure TabC where
  present : Bool
  items : Nat → List String
  rawText : Nat → String
  inPane : Bool
  hasTrigger : Bool

/-! ### Gallery collection — `_collect_gallery`, `modal_scraper.py` 272-298 -/

/-- The `for idx, img in enumerate(thumbnails, start=1)` loop: `idx` is the
1-based thumbnail index whether or not earlier thumbnails were skipped. -/
def galleryAux (acc : List GalleryEntry) (idx : Nat) :
    List Thumb → List GalleryEntry
  | [] => acc
  | t :: ts =>
    match t.src with
    | Option.none => galleryAux acc (idx + 1) ts
    | some url =>
      if url = "" then galleryAux acc (idx + 1) ts
      else
        let href : Option String :=
          match t.anchor with
          | Option.none => some url
          | some a => a
        if acc.any (fun e => e.url == url) then galleryAux acc (idx + 1) ts
        else
          galleryAux (acc ++ [⟨url, pyOrS href url, false, idx⟩]) (idx + 1) ts

/-- `_collect_gallery(modal, main_src, main_href)`. -/
def collect_gallery (mainSrc mainHref : Option String) (thumbs : List Thumb) :
    List GalleryEntry :=
  let init : List GalleryEntry :=
    match mainSrc with
    | Option.none => []
    | some s => if s = "" then [] else [⟨s, pyOrS mainHref s, true, 0⟩]
  galleryAux init 1 thumbs

/-! ### Tab-content loading — `modal_scraper.py` 190-269 -/

/-- Timeout (in poll steps) for lazy tab content (`TAB_CONTENT_TIMEOUT`). -/
def TAB_CONTENT_TIMEOUT : Nat := 15

/-- `_container_has_content` at poll step `t` (`None` containers are
handled by the callers through `TabC.present`). -/
def containerHasContent (tab : TabC) (t : Nat) : Bool :=
  tab.present && (!(tab.items t).isEmpty || pyStrip (tab.rawText t) ≠ "")

/-- First poll step in `1..timeout` at which the container has content. -/
def firstReadyIn (tab : TabC) (timeout : Nat) : Option Nat :=
  (List.range (timeout + 1)).find? (fun t => 0 < t && containerHasContent tab t)

/-- `_ensure_tab_content_loaded`: returns the poll step at which the
container is finally read (`none` when the container is absent) together
with the number of activation-control clicks performed.  When the wait
times out the exception is swallowed and the container is re-read at the
timeout step. -/
def ensure_tab_content_loaded (tab : TabC) (timeout : Nat) : Option Nat × Nat :=
  if ¬ tab.present then (Option.none, 0)
  else if containerHasContent tab 0 then (some 0, 0)
  else
    let clicks := if tab.inPane ∧ tab.hasTrigger then 1 else 0
    ((firstReadyIn tab timeout).getD timeout, clicks)

/-- `_collect_list_items(modal, container_selector)`. -/
def collect_list_items (tab : TabC) (timeout : Nat) : List String :=
  match (ensure_tab_content_loaded tab timeout).1 with
  | Option.none => []
  | some t =>
    let items := ((tab.items t).map pyStrip).filter (fun s => s ≠ "")
    if ¬ items.isEmpty then items
    else
      let rawText := pyStrip (tab.rawText t)
      if rawText = "" then []
      else
        let lines := ((pySplitlines rawText).map pyStrip).filter (fun s => s ≠ "")
        match lines with
        | [] => []
        | l :: rest => if l.endsWith ":" then rest else l :: rest

/-! ### Badge collectors — `modal_scraper.py` 172-187 -/

/-- `_collect_badge_values`: trimmed non-empty badge texts, DOM order. -/
def collect_badge_values (badges : List BadgeEl) : List String :=
  (badges.map (fun b => pyStrip b.text)).filter (fun s => s ≠ "")

/-- `_collect_labeled_badges`: label = trimmed text or `None`; tooltip =
`data-original-title` or `title` attribute or `None`. -/
def collect_labeled_badges (badges : List BadgeEl) : List (Option String × Option String) :=
  badges.map fun b =>
    (let label := pyStrip b.text
     if label = "" then Option.none else some label,
     let tooltip := pyOrS b.titleAttr (pyOrS b.title2 "")
     if tooltip = "" then Option.none else some tooltip)

/-! ### The modal page and the detail extractor — `modal_scraper.py` 18-136 -/

/-- The observable state of the product overlay: exactly the element
texts and attributes `extract_modal_data` reads.  A field of type
`Option String` is `none` when the element (or attribute) is absent.
The two readiness waits (overlay visibility and
`_modal_content_ready`) are bounded polls against the browser's
asynchronous rendering; they are modelled by whether they succeed within
the timeout. -/
structure ModalPage where
  visibleInTime : Bool
  contentReadyInTime : Bool
  skuText : Option String
  nameText : Option String
  priceText : Option String
  stockBadge : Option BadgeEl
  priceMinAlertClass : Option (Option String)
  priceMinText : Option String
  brandText : Option String
  modelText : Option String
  colorText : Option String
  voltageText : Option String
  eanText : Option String
  ncmText : Option String
  anatelText : Option String
  inmetroText : Option String
  weightText : Option String
  sizeText : Option String
  categoryBadges : List BadgeEl
  flagBadges : List BadgeEl
  descriptionInner : Option String
  noticesInner : Option String
  topKeys : TabC
  topTitles : TabC
  videoSrc : Option (Option String)
  mainImage : Option (Option String)
  mainImageLink : Option (Option String)
  thumbs : List Thumb

/-- `_text_or_none(context, selector)`: trimmed text of the first matching
element, `None` when the element is missing or its text is empty. -/
def text_or_none (el : Option String) : Option String :=
  match el with
  | Option.none => Option.none
  | some t => let s := pyStrip t; if s = "" then Option.none else some s

/-- `_clean_modal_name(text)`. -/
def clean_modal_name (text : Option String) : Option String :=
  match text with
  | Option.none => Option.none
  | some t =>
    if t = "" then Option.none
    else
      let cleaned := pyStrip (String.mk
        (removeSubstr "Clique para copiar".data t.data))
      if cleaned = "" then Option.none else some cleaned

/-- Python `x or y` on optional parsed quantities: `None` and `0` are
falsy, so either sends the expression to its right operand. -/
def pyOrQty (x y : Option Nat) : Option Nat :=
  match x with
  | some (n + 1) => some (n + 1)
  | _ => y

/-- The shared stock-quantity pattern
`_parse_quantity(tooltip) or _parse_quantity(label)`
(`modal_scraper.py` line 48, `list_scraper.py` line 131). -/
def qtyFrom (tooltip label : Option String) : Option Nat :=
  pyOrQty (parse_quantity tooltip) (parse_quantity label)

/-- The `price_min_brl` value: populated only when `#price-min-alert`
exists and its class attribute does not contain `"hidden"`
(`modal_scraper.py` lines 54-60). -/
def priceMinValue (page : ModalPage) : Option Dec :=
  match page.priceMinAlertClass with
  | Option.none => Option.none
  | some cls =>
    if listContainsSub "hidden".data (pyOrS cls "").data then Option.none
    else parse_decimal (text_or_none page.priceMinText)

/-- The record built by `extract_modal_data` after both readiness waits
succeed: the fields up to `price_min_brl` are always written; in light
mode the function returns there, otherwise the remaining detail fields
follow (`modal_scraper.py` lines 32-105). -/
def extractData (page : ModalPage) (productId : Int) (light : Bool) : Record :=
  let base : Record :=
    [("product_id", PyVal.int productId),
     ("sku", optStr (text_or_none page.skuText)),
     ("name", optStr (clean_modal_name (text_or_none page.nameText))),
     ("price_text", optStr (text_or_none page.priceText)),
     ("price_brl", optDec (parse_decimal (text_or_none page.priceText))),
     ("stock_label",
       match page.stockBadge with
       | some b => pyStrOrNone (pyStrip b.text)
       | Option.none => PyVal.none),
     ("stock_tooltip",
       match page.stockBadge with
       | some b => PyVal.str (pyOrS b.titleAttr "")
       | Option.none => PyVal.str ""),
     ("available_qty",
       match page.stockBadge with
       | some b => optNat (qtyFrom (some (pyOrS b.titleAttr "")) (some (pyStrip b.text)))
       | Option.none => PyVal.none),
     ("price_min_brl", optDec (priceMinValue page))]
  if light then base
  else
    base ++
    [("brand", optStr (text_or_none page.brandText)),
     ("model", optStr (text_or_none page.modelText)),
     ("color", optStr (text_or_none page.colorText)),
     ("voltage", optStr (text_or_none page.voltageText)),
     ("ean", optStr (text_or_none page.eanText)),
     ("ncm", optStr (text_or_none page.ncmText)),
     ("anatel", optStr (text_or_none page.anatelText)),
     ("inmetro", optStr (text_or_none page.inmetroText)),
     ("weight_kg", optDec (parse_decimal (text_or_none page.weightText))),
     ("dimensions_cm", optStr (text_or_none page.sizeText)),
     ("categories", PyVal.listStr (collect_badge_values page.categoryBadges)),
     ("flags", PyVal.listPair (collect_labeled_badges page.flagBadges)),
     ("description_html",
       match page.descriptionInner with
       | some t => PyVal.str (pyStrip t)
       | Option.none => PyVal.none),
     ("notices_html",
       match page.noticesInner with
       | some t => PyVal.str (pyStrip t)
       | Option.none => PyVal.none),
     ("top_keywords", PyVal.listStr (collect_list_items page.topKeys TAB_CONTENT_TIMEOUT)),
     ("title_suggestions", PyVal.listStr (collect_list_items page.topTitles TAB_CONTENT_TIMEOUT)),
     ("video_url", optStr page.videoSrc.join),
     ("main_image", optStr page.mainImage.join),
     ("main_image_full", optStr page.mainImageLink.join),
     ("images", PyVal.listImg
       (collect_gallery page.mainImage.join page.mainImageLink.join page.thumbs))]

/-- Observable page-level side effects of the extractor. -/
inductive Action where
  | closeModal
deriving DecidableEq, Repr

/-- `extract_modal_data(driver, product_id, wait_timeout, light)`:
result (or raised error) together with the list of close-sequence
executions performed before control returns to the caller
(`modal_scraper.py` lines 18-110).  On a readiness timeout the modal is
closed and a `RuntimeError` is raised; the full-mode return passes
through a `try/finally` that closes the modal; the light-mode
`return data` at line 63 precedes that `try/finally`. -/
def extract_modal_data (page : ModalPage) (productId : Int) (light : Bool) :
    Except String Record × List Action :=
  if page.visibleInTime && page.contentReadyInTime then
    if light then (Except.ok (extractData page productId true), [])
    else (Except.ok (extractData page productId false), [Action.closeModal])
  else
    (Except.error "Modal não carregou completamente antes do timeout.",
     [Action.closeModal])

/-! ### Listing rows and the walker — `list_scraper.py` 25-149 -/

/-- One visible row of the listing table: the texts and attributes read by
`_extract_listing_summary`, plus the overlay page its trigger opens.
The trigger element itself and the title cell are present on every row of
the fixed table layout; `dataId` is its `data-id` attribute.  `_open_modal`
is a bounded wait-and-click whose failure mode (overlay never visible) is
subsumed by `ModalPage.visibleInTime`. -/
structure ListingRow where
  dataId : Option String
  skuCell : Option String
  thumbAnchorHref : Option (Option String)
  thumbImgSrc : Option (Option String)
  titleText : String
  titleSmalls : List String
  titleBadges : List BadgeEl
  modelCell : Option String
  brandCell : Option String
  priceCell : Option String
  stockSpan : Option BadgeEl
  modal : ModalPage

/-- `_safe_text(context, selector)`: trimmed text, `""` when the element
is missing (`NoSuchElementException` handler). -/
def safe_text (el : Option String) : String :=
  match el with
  | Option.none => ""
  | some t => pyStrip t

/-- `_first_text(elements)`: the first non-empty trimmed text, else `None`. -/
def first_text (texts : List String) : Option String :=
  match texts with
  | [] => Option.none
  | t :: ts =>
    let s := pyStrip t
    if s ≠ "" then some s else first_text ts

/-- `_collect_badges(context)` (`list_scraper.py` 152-158). -/
def collect_badges (badges : List BadgeEl) : List (Option String × Option String) :=
  badges.map fun b =>
    (let label := pyStrip b.text
     if label = "" then Option.none else some label,
     let tooltip := pyOrS b.titleAttr ""
     if tooltip = "" then Option.none else some tooltip)

/-- Python `int(str)` in base 10: optional surrounding whitespace,
optional sign, at least one digit, nothing else. -/
def pyIntParse (s : String) : Option Int :=
  let cs := pyStripL s.data
  let (sgn, r1) := parseSign cs
  let ds := r1.takeWhile isDig
  if ds.isEmpty ∨ ¬ (r1.drop ds.length).isEmpty then Option.none
  else some (sgn * (digitsToNat ds : Int))

/-- The title-cell processing of `_extract_listing_summary`
(`list_scraper.py` 114-120): split the cell text into trimmed non-empty
lines and drop the first when it repeats the colour line. -/
def titleLines (row : ListingRow) (listingColor : Option String) : List String :=
  let lines := ((pySplitlines row.titleText).map pyStrip).filter (fun s => s ≠ "")
  match listingColor, lines with
  | some color, l :: rest =>
    if pyLower l = pyLower color then rest else l :: rest
  | _, _ => lines

/-- `_extract_listing_summary(driver, row_index)` (`list_scraper.py`
93-149): raises when the trigger has no `data-id` or it fails to parse as
an integer; otherwise returns the listing-summary record. -/
def extract_listing_summary (row : ListingRow) : Except String Record :=
  match row.dataId with
  | Option.none => Except.error "Botão do modal não possui data-id."
  | some pidRaw =>
    match pyIntParse pidRaw with
    | Option.none =>
      Except.error ("invalid literal for int() with base 10: " ++ pidRaw)
    | some productId =>
      let sku := safe_text row.skuCell
      let listingColor := first_text row.titleSmalls
      let lines := titleLines row listingColor
      let listingName := match lines with | [] => "" | l :: _ => l
      let stockLabel := match row.stockSpan with
        | some b => pyStrip b.text
        | Option.none => ""
      let stockTooltip : Option String := match row.stockSpan with
        | some b => b.titleAttr
        | Option.none => some ""
      Except.ok
        [("product_id", PyVal.int productId),
         ("listing_sku", pyStrOrNone sku),
         ("listing_thumbnail", optStr row.thumbImgSrc.join),
         ("listing_thumbnail_full", optStr row.thumbAnchorHref.join),
         ("listing_name", PyVal.str listingName),
         ("listing_color", optStr listingColor),
         ("listing_model", pyStrOrNone (safe_text row.modelCell)),
         ("listing_brand", pyStrOrNone (safe_text row.brandCell)),
         ("listing_price_text", pyStrOrNone (safe_text row.priceCell)),
         ("listing_stock_badge", pyStrOrNone stockLabel),
         ("listing_stock_tooltip", PyVal.str (pyOrS stockTooltip "")),
         ("listing_available_qty", optNat (qtyFrom stockTooltip (some stockLabel))),
         ("listing_badges", PyVal.listPair (collect_badges row.titleBadges))]

/-- `known = bool(known_skus) and listing_sku and listing_sku in known_skus`
(`list_scraper.py` line 47), coerced to `bool` as by `light=known` /
`bool(known)`. -/
def rowKnown (knownSkus : List String) (summary : Record) : Bool :=
  !knownSkus.isEmpty &&
    (match lookupRec summary "listing_sku" with
     | some (PyVal.str s) => s ≠ "" && knownSkus.contains s
     | _ => false)

/-- The `summary["product_id"]` value handed to `extract_modal_data`. -/
def recPid (summary : Record) : Int :=
  match lookupRec summary "product_id" with
  | some (PyVal.int n) => n
  | _ => 0

/-- The per-row body of the walker loop after the summary succeeded
(`list_scraper.py` 47-60): open the overlay, extract (light when known),
merge; on any raised error keep the summary and record the message in
`scrape_error`; always set `_existing_sku`. -/
def rowResult (knownSkus : List String) (row : ListingRow) (summary : Record) :
    Record :=
  match (extract_modal_data row.modal (recPid summary)
      (rowKnown knownSkus summary)).1 with
  | Except.ok details =>
    dictInsert
      (if rowKnown knownSkus summary then
        dictInsert (dictMerge summary details) "scrape_error" PyVal.none
      else dictMerge summary details)
      "_existing_sku" (PyVal.bool (rowKnown knownSkus summary))
  | Except.error msg =>
    dictInsert (dictInsert summary "scrape_error" (PyVal.str msg))
      "_existing_sku" (PyVal.bool (rowKnown knownSkus summary))

/-- One full row iteration: the summary extraction happens before the
`try` (line 45), so its errors propagate; everything after it is caught
at row granularity. -/
def processRow (knownSkus : List String) (row : ListingRow) : Except String Record :=
  match extract_listing_summary row with
  | Except.error e => Except.error e
  | Except.ok summary => Except.ok (rowResult knownSkus row summary)

/-- The `for index in range(len(rows))` loop over one page of
`scrape_all_products` (`list_scraper.py` 44-62): rows processed in order,
a summary-extraction error propagating out of the loop (and discarding
the page's records), per-row extraction errors recorded in place. -/
def scrapePage (knownSkus : List String) : List ListingRow → Except String (List Record)
  | [] => Except.ok []
  | row :: rest =>
    match processRow knownSkus row with
    | Except.error e => Except.error e
    | Except.ok rec =>
      match scrapePage knownSkus rest with
      | Except.error e => Except.error e
      | Except.ok recs => Except.ok (rec :: recs)

/-! ### Concrete page states used as witnesses and counterexamples -/

/-- A tab container that is already populated at the first read. -/
def tabReady (xs : List String) : TabC :=
  ⟨true, fun _ => xs, fun _ => "", true, true⟩

/-- A tab container that never receives content. -/
def tabNever : TabC :=
  ⟨true, fun _ => [], fun _ => "", true, true⟩

/-- A fully-populated overlay page. -/
def pgFull : ModalPage where
  visibleInTime := true
  contentReadyInTime := true
  skuText := some "SKU-1"
  nameText := some "Produto Um Clique para copiar"
  priceText := some "R$ 1.234,56"
  stockBadge := some ⟨"5 unidades", some "Quantidade: 1.234", Option.none⟩
  priceMinAlertClass := some (some "alert")
  priceMinText := some "R$ 9,99"
  brandText := some "BrandX"
  modelText := some "MX-1"
  colorText := some "Azul"
  voltageText := some "110V"
  eanText := some "789"
  ncmText := some "8517"
  anatelText := Option.none
  inmetroText := Option.none
  weightText := some "1.5"
  sizeText := some "10x20x30"
  categoryBadges := [⟨"Eletrônicos", Option.none, Option.none⟩, ⟨" ", Option.none, Option.none⟩]
  flagBadges := [⟨"Novo", some "Lançamento", Option.none⟩]
  descriptionInner := some "<p>desc</p>"
  noticesInner := Option.none
  topKeys := tabReady ["kw um", "kw dois"]
  topTitles := tabNever
  videoSrc := some (some "http://v/1")
  mainImage := some (some "http://img/A")
  mainImageLink := some (some "http://img/A-full")
  thumbs := [⟨some "http://img/A", some (some "http://img/A-full")⟩,
             ⟨some "http://img/B", some (some "http://img/B-full")⟩]

/-- The same page with the overlay never becoming visible in time. -/
def pgTimeout : ModalPage :=
  { pgFull with visibleInTime := false }

/-- An overlay whose stock tooltip says quantity `0` while the label
carries a non-zero count. -/
def pgZeroTooltip : ModalPage :=
  { pgFull with stockBadge := some ⟨"5 unidades", some "Quantidade: 0", Option.none⟩ }

/-- A listing row whose trigger opens `pgFull`; its listing SKU is `"S1"`. -/
def rowS1 : ListingRow where
  dataId := some "42"
  skuCell := some " S1 "
  thumbAnchorHref := some (some "http://t/1-full")
  thumbImgSrc := some (some "http://t/1")
  titleText := "Azul\nProduto Um"
  titleSmalls := ["Azul"]
  titleBadges := [⟨"Promo", some "Promoção", Option.none⟩]
  modelCell := some "MX-1"
  brandCell := some "BrandX"
  priceCell := some "R$ 1.234,56"
  stockSpan := some ⟨"5 unidades", some "Quantidade: 1.234", Option.none⟩
  modal := pgFull

/-- A second row with an unknown SKU `"S2"`. -/
def rowS2 : ListingRow :=
  { rowS1 with skuCell := some "S2", dataId := some "43" }

/-- A row whose trigger is missing the `data-id` attribute. -/
def rowNoId : ListingRow :=
  { rowS1 with dataId := Option.none }

/-- A row whose overlay never becomes ready. -/
def rowTimeout : ListingRow :=
  { rowS1 with dataId := some "44", skuCell := some "S3", modal := pgTimeout }

/-! ### Dictionary lemmas -/

theorem lookupRec_dictInsert_self (r : Record) (k : String) (v : PyVal) :
    lookupRec (dictInsert r k v) k = some v := by
  induction r with
  | nil => simp [dictInsert, lookupRec]
  | cons p ps ih =>
    by_cases hp : p.1 = k
    · simp [dictInsert, hp, lookupRec]
    · simp [dictInsert, hp, lookupRec, ih]

theorem lookupRec_dictInsert_ne (r : Record) (k k' : String) (v : PyVal)
    (h : k' ≠ k) : lookupRec (dictInsert r k v) k' = lookupRec r k' := by
  induction r with
  | nil => simp [dictInsert, lookupRec, Ne.symm h]
  | cons p ps ih =>
    by_cases hp : p.1 = k
    · simp [dictInsert, hp, lookupRec, Ne.symm h]
    · simp [dictInsert, hp, lookupRec, ih]

/-! ### Walker lemmas -/

/-- `scrapePage` succeeds exactly rowwise: the output has one record per
row and record `i` is the result of processing row `i` alone. -/
theorem scrapePage_ok (known : List String) :
    ∀ (rows : List ListingRow) (recs : List Record),
      scrapePage known rows = Except.ok recs →
      recs.length = rows.length ∧
      ∀ i (hi : i < rows.length) (hr : i < recs.length),
        processRow known (rows.get ⟨i, hi⟩) = Except.ok (recs.get ⟨i, hr⟩) := by
  intro rows
  induction rows with
  | nil =>
    intro recs h
    simp only [scrapePage] at h
    cases h
    exact ⟨rfl, fun i hi => by cases hi⟩
  | cons row rest ih =>
    intro recs h
    simp only [scrapePage] at h
    cases hp : processRow known row with
    | error e => rw [hp] at h; cases h
    | ok rec =>
      rw [hp] at h
      cases hs : scrapePage known rest with
      | error e => rw [hs] at h; cases h
      | ok rs =>
        rw [hs] at h
        cases h
        obtain ⟨hlen, hidx⟩ := ih rs hs
        refine ⟨by simp [hlen], ?_⟩
        intro i hi hr
        match i with
        | 0 => exact hp
        | n + 1 =>
          exact hidx n (Nat.lt_of_succ_lt_succ hi) (Nat.lt_of_succ_lt_succ hr)

/-- When the overlay open/extraction raises, `rowResult` keeps the summary
and adds `scrape_error` and `_existing_sku`. -/
theorem rowResult_error (known : List String) (row : ListingRow)
    (summary : Record) (msg : String)
    (hErr : (extract_modal_data row.modal (recPid summary)
        (rowKnown known summary)).1 = Except.error msg) :
    lookupRec (rowResult known row summary) "scrape_error" =
      some (PyVal.str msg) ∧
    ∀ k v, k ≠ "scrape_error" → k ≠ "_existing_sku" →
      lookupRec summary k = some v →
      lookupRec (rowResult known row summary) k = some v := by
  unfold rowResult
  rw [hErr]
  constructor
  · rw [lookupRec_dictInsert_ne _ _ _ _ (by decide)]
    exact lookupRec_dictInsert_self ..
  · intro k v hk1 hk2 hlook
    rw [lookupRec_dictInsert_ne _ _ _ _ hk2, lookupRec_dictInsert_ne _ _ _ _ hk1]
    exact hlook

/-! ### Gallery lemmas -/

theorem galleryAux_pairwise (ts : List Thumb) :
    ∀ (acc : List GalleryEntry) (idx : Nat),
      acc.Pairwise (fun e f => e.url ≠ f.url) →
      (galleryAux acc idx ts).Pairwise (fun e f => e.url ≠ f.url) := by
  induction ts with
  | nil => intro acc idx h; simpa [galleryAux] using h
  | cons t ts ih =>
    intro acc idx h
    simp only [galleryAux]
    cases hsrc : t.src with
    | none => exact ih acc (idx + 1) h
    | some url =>
      by_cases hu : url = ""
      · simp only [hu, if_pos rfl]
        exact ih acc (idx + 1) h
      · simp only [if_neg hu]
        by_cases hdup : acc.any (fun e => e.url == url)
        · simp only [hdup, if_pos rfl]
          exact ih acc (idx + 1) h
        · rw [if_neg (by simpa using hdup)]
          apply ih
          rw [List.pairwise_append]
          refine ⟨h, List.pairwise_singleton _ _, ?_⟩
          intro e he e' he'
          rw [List.mem_singleton] at he'
          subst he'
          simp only [List.any_eq_true, not_exists, not_and] at hdup
          intro hurl
          have hc := hdup e he
          rw [hurl] at hc
          simp at hc

theorem galleryAux_extends (ts : List Thumb) :
    ∀ (acc : List GalleryEntry) (idx : Nat),
      ∃ rest, galleryAux acc idx ts = acc ++ rest ∧
        ∀ e ∈ rest, e.is_main = false ∧ idx ≤ e.position := by
  induction ts with
  | nil =>
    intro acc idx
    exact ⟨[], by simp [galleryAux], by simp⟩
  | cons t ts ih =>
    intro acc idx
    have step : ∀ acc', (∃ rest, galleryAux acc' (idx + 1) ts = acc' ++ rest ∧
        ∀ e ∈ rest, e.is_main = false ∧ idx + 1 ≤ e.position) →
        ∃ rest, galleryAux acc' (idx + 1) ts = acc' ++ rest ∧
        ∀ e ∈ rest, e.is_main = false ∧ idx ≤ e.position := by
      intro acc' ⟨rest, h1, h2⟩
      exact ⟨rest, h1, fun e he =>
        ⟨(h2 e he).1, Nat.le_of_succ_le (h2 e he).2⟩⟩
    simp only [galleryAux]
    cases hsrc : t.src with
    | none => exact step acc (ih acc (idx + 1))
    | some url =>
      by_cases hu : url = ""
      · simp only [hu, if_pos rfl]
        exact step acc (ih acc (idx + 1))
      · simp only [if_neg hu]
        by_cases hdup : acc.any (fun e => e.url == url)
        · simp only [hdup, if_pos rfl]
          exact step acc (ih acc (idx + 1))
        · rw [if_neg (by simpa using hdup)]
          obtain ⟨rest, h1, h2⟩ := ih (acc ++ [⟨url,
            pyOrS (match t.anchor with | Option.none => some url | some a => a) url,
            false, idx⟩]) (idx + 1)
          refine ⟨_ :: rest, by simpa using h1, ?_⟩
          intro e he
          rcases List.mem_cons.mp he with he | he
          · subst he; exact ⟨rfl, Nat.le_refl idx⟩
          · exact ⟨(h2 e he).1, Nat.le_of_succ_le (h2 e he).2⟩

/-! ### Claim C1 -/

/-- C1, as stated, is false on the code: `_extract_listing_summary` runs
before the per-row `try` (`list_scraper.py` line 45 vs 49), so a trigger
missing its `data-id` raises out of the page loop — the page yields no
records at all instead of isolating the bad row. -/
theorem C1_counterexample :
    scrapePage [] [rowNoId, rowS1] =
      Except.error "Botão do modal não possui data-id." ∧
    (scrapePage [] [rowNoId, rowS1]).isOk = false :=
  ⟨rfl, rfl⟩

/-- C1 (amended): errors raised during overlay open/extraction are
confined to their row — when a page run succeeds it yields exactly one
record per row, record `i` depending only on row `i`; and a row whose
extraction raised keeps every listing-summary field and carries the error
message in `scrape_error`.  (A missing trigger `data-id` is the
exception: it raises before the per-row catch and aborts the page.) -/
theorem C1_row_isolation :
    (∀ (known : List String) (rows : List ListingRow) (recs : List Record),
      scrapePage known rows = Except.ok recs →
        recs.length = rows.length ∧
        ∀ i (hi : i < rows.length) (hr : i < recs.length),
          processRow known (rows.get ⟨i, hi⟩) = Except.ok (recs.get ⟨i, hr⟩)) ∧
    (∀ (known : List String) (row : ListingRow) (summary : Record) (msg : String),
      (extract_modal_data row.modal (recPid summary)
          (rowKnown known summary)).1 = Except.error msg →
        lookupRec (rowResult known row summary) "scrape_error" =
          some (PyVal.str msg) ∧
        ∀ k v, k ≠ "scrape_error" → k ≠ "_existing_sku" →
          lookupRec summary k = some v →
          lookupRec (rowResult known row summary) k = some v) :=
  ⟨scrapePage_ok, rowResult_error⟩

/-- The listing summary of `rowTimeout`, as `_extract_listing_summary`
returns it. -/
def summaryS3 : Record :=
  [("product_id", PyVal.int 44),
   ("listing_sku", PyVal.str "S3"),
   ("listing_thumbnail", PyVal.str "http://t/1"),
   ("listing_thumbnail_full", PyVal.str "http://t/1-full"),
   ("listing_name", PyVal.str "Produto Um"),
   ("listing_color", PyVal.str "Azul"),
   ("listing_model", PyVal.str "MX-1"),
   ("listing_brand", PyVal.str "BrandX"),
   ("listing_price_text", PyVal.str "R$ 1.234,56"),
   ("listing_stock_badge", PyVal.str "5 unidades"),
   ("listing_stock_tooltip", PyVal.str "Quantidade: 1.234"),
   ("listing_available_qty", PyVal.int 1234),
   ("listing_badges", PyVal.listPair [(some "Promo", some "Promoção")])]

theorem C1_row_isolation_witness :
    ((scrapePage [] [rowS1, rowTimeout, rowS2]).toOption.getD []).length = 3 ∧
    lookupRec (rowResult [] rowTimeout summaryS3) "scrape_error" =
      some (PyVal.str "Modal não carregou completamente antes do timeout.") ∧
    lookupRec (rowResult [] rowTimeout summaryS3) "listing_sku" =
      some (PyVal.str "S3") := by
  refine ⟨?_, ?_, ?_⟩
  · have h : scrapePage [] [rowS1, rowTimeout, rowS2] = Except.ok
        ((scrapePage [] [rowS1, rowTimeout, rowS2]).toOption.getD []) := by rfl
    exact (C1_row_isolation.1 [] [rowS1, rowTimeout, rowS2] _ h).1
  · exact (C1_row_isolation.2 [] rowTimeout summaryS3 _ rfl).1
  · exact (C1_row_isolation.2 [] rowTimeout summaryS3
      "Modal não carregou completamente antes do timeout." rfl).2
      "listing_sku" (PyVal.str "S3") (by decide) (by decide) rfl

/-! ### Claim C2 -/

/-- C2: the close sequence is executed on the readiness-timeout raise and
on the full-mode return, but the light-mode `return data`
(`modal_scraper.py` lines 62-63) precedes the `try/finally` of lines
107-110: a light-mode extraction returns normally with no close-sequence
execution, leaving the overlay open when control goes back to the walker
— contradicting the close-before-return contract. -/
theorem C2_light_mode_skips_close :
    (extract_modal_data pgFull 42 true).1 =
        Except.ok (extractData pgFull 42 true) ∧
    (extract_modal_data pgFull 42 true).2 = [] ∧
    (extract_modal_data pgFull 42 false).2 = [Action.closeModal] ∧
    (extract_modal_data pgTimeout 42 true).2 = [Action.closeModal] ∧
    (extract_modal_data pgTimeout 42 false).2 = [Action.closeModal] :=
  ⟨rfl, rfl, rfl, rfl, rfl⟩

/-! ### Claim C5 -/

/-- C5, as stated, is false on the code: the deduplicated thumbnail `B`
keeps its 1-based thumbnail index (`enumerate(thumbnails, start=1)`),
so its gallery position is 2, not 1. -/
theorem C5_counterexample :
    collect_gallery (some "A") (some "A")
        [⟨some "A", some (some "A")⟩, ⟨some "B", some (some "B")⟩] ≠
      [⟨"A", "A", true, 0⟩, ⟨"B", "B", false, 1⟩] := by
  decide

/-- C5 (amended): the gallery built from main URL `A` and thumbnails
`[A, B]` is `[{A, main, position 0}, {B, not-main, position 2}]` — entry
positions carry the 1-based thumbnail index, so deduplication leaves
gaps; in general the gallery never contains two entries with the same
URL, and when a main image is present it is the first entry, with
`is_main = true` and position 0, all later entries being non-main. -/
theorem C5_gallery_dedup :
    collect_gallery (some "A") (some "A")
        [⟨some "A", some (some "A")⟩, ⟨some "B", some (some "B")⟩] =
      [⟨"A", "A", true, 0⟩, ⟨"B", "B", false, 2⟩] ∧
    (∀ ms mh ts, (collect_gallery ms mh ts).Pairwise
      (fun e f => e.url ≠ f.url)) ∧
    (∀ (s : String) mh ts, s ≠ "" →
      ∃ rest, collect_gallery (some s) mh ts =
          ⟨s, pyOrS mh s, true, 0⟩ :: rest ∧
        ∀ e ∈ rest, e.is_main = false ∧ 1 ≤ e.position) := by
  refine ⟨by decide, ?_, ?_⟩
  · intro ms mh ts
    apply galleryAux_pairwise
    cases ms with
    | none => exact List.Pairwise.nil
    | some s =>
      by_cases hs : s = "" <;> simp [hs]
  · intro s mh ts hs
    unfold collect_gallery
    simp only [if_neg hs]
    obtain ⟨rest, h1, h2⟩ := galleryAux_extends ts [⟨s, pyOrS mh s, true, 0⟩] 1
    exact ⟨rest, by simpa using h1, h2⟩

theorem C5_gallery_dedup_witness :
    (collect_gallery (some "X") (some "") [⟨some "Y", Option.none⟩]).Pairwise
      (fun e f => e.url ≠ f.url) ∧
    (collect_gallery (some "X") (some "") [⟨some "Y", Option.none⟩]).head? =
      some ⟨"X", "X", true, 0⟩ := by
  constructor
  · exact C5_gallery_dedup.2.1 (some "X") (some "") [⟨some "Y", Option.none⟩]
  · obtain ⟨rest, h1, _⟩ := C5_gallery_dedup.2.2 "X" (some "")
      [⟨some "Y", Option.none⟩] (by decide)
    rw [h1]
    rfl

/-! ### Claim C8 -/

/-- C8: a tab container that already has a list item or non-empty text is
read as-is with no click; otherwise the activation control is clicked at
most once — exactly once when the `tab-pane` ancestor and a trigger
exist — and the container is re-polled up to the timeout; a container
that never becomes ready yields an empty list, with no error raised. -/
theorem C8_tab_content :
    (∀ (tab : TabC) (timeout : Nat),
      (ensure_tab_content_loaded tab timeout).2 ≤ 1) ∧
    (∀ (tab : TabC) (timeout : Nat), containerHasContent tab 0 = true →
      ensure_tab_content_loaded tab timeout = (some 0, 0)) ∧
    (∀ (tab : TabC) (timeout : Nat), containerHasContent tab 0 = false →
      tab.present = true → tab.inPane = true → tab.hasTrigger = true →
      (ensure_tab_content_loaded tab timeout).2 = 1) ∧
    (∀ (tab : TabC) (timeout : Nat),
      (∀ t, tab.items t = [] ∧ pyStrip (tab.rawText t) = "") →
      collect_list_items tab timeout = []) := by
  refine ⟨?_, ?_, ?_, ?_⟩
  · intro tab timeout
    unfold ensure_tab_content_loaded
    split
    · exact Nat.zero_le 1
    · split
      · exact Nat.zero_le 1
      · split <;> simp
  · intro tab timeout h
    have h' := h
    simp only [containerHasContent, Bool.and_eq_true] at h'
    simp [ensure_tab_content_loaded, h'.1, h]
  · intro tab timeout h hp hpane htrig
    simp [ensure_tab_content_loaded, hp, h, hpane, htrig]
  · intro tab timeout h
    have h1 : ∀ t, tab.items t = [] := fun t => (h t).1
    have h2 : ∀ t, pyStrip (tab.rawText t) = "" := fun t => (h t).2
    have hcc : ∀ t, containerHasContent tab t = false := by
      intro t
      simp [containerHasContent, h1 t, h2 t]
    by_cases hp : tab.present
    · simp [collect_list_items, ensure_tab_content_loaded, hp, hcc, h1, h2]
    · simp [collect_list_items, ensure_tab_content_loaded, hp]

theorem C8_tab_content_witness :
    (ensure_tab_content_loaded (tabReady ["kw"]) TAB_CONTENT_TIMEOUT).2 ≤ 1 ∧
    ensure_tab_content_loaded (tabReady ["kw"]) TAB_CONTENT_TIMEOUT = (some 0, 0) ∧
    (ensure_tab_content_loaded tabNever TAB_CONTENT_TIMEOUT).2 = 1 ∧
    collect_list_items tabNever TAB_CONTENT_TIMEOUT = [] := by
  refine ⟨?_, ?_, ?_, ?_⟩
  · exact C8_tab_content.1 (tabReady ["kw"]) TAB_CONTENT_TIMEOUT
  · exact C8_tab_content.2.1 (tabReady ["kw"]) TAB_CONTENT_TIMEOUT (by decide)
  · exact C8_tab_content.2.2.1 tabNever TAB_CONTENT_TIMEOUT
      (by decide) rfl rfl rfl
  · exact C8_tab_content.2.2.2 tabNever TAB_CONTENT_TIMEOUT
      (fun t => ⟨rfl, rfl⟩)

/-! ### Claim C9 -/

/-- A row whose stock tooltip parses to `0` while the label holds a
non-zero count. -/
def rowZeroTooltip : ListingRow :=
  { rowS1 with stockSpan := some ⟨"5 unidades", some "Quantidade: 0", Option.none⟩ }

/-- C9: in both extractors the available quantity is
`_parse_quantity(tooltip) or _parse_quantity(label)` under Python
truthiness, so a tooltip parsing to `None` or to exactly `0` falls back
to the label; a tooltip saying quantity 0 next to a label with a
non-zero number yields the label's count, never 0. -/
theorem C9_qty_truthiness_fallback :
    (∀ t l, parse_quantity t = Option.none ∨ parse_quantity t = some 0 →
      qtyFrom t l = parse_quantity l) ∧
    qtyFrom (some "Quantidade: 0") (some "5 unidades") = some 5 ∧
    lookupRec (extractData pgZeroTooltip 42 true) "available_qty" =
      some (PyVal.int 5) ∧
    (extract_listing_summary rowZeroTooltip).map
        (fun r => lookupRec r "listing_available_qty") =
      Except.ok (some (PyVal.int 5)) := by
  refine ⟨?_, by decide, by decide, rfl⟩
  intro t l h
  unfold qtyFrom
  rcases h with h | h <;> rw [h] <;> rfl

theorem C9_qty_truthiness_fallback_witness :
    qtyFrom (some "indisponível") (some "7") = parse_quantity (some "7") ∧
    qtyFrom (some "0 em estoque") (some "7") = parse_quantity (some "7") :=
  ⟨C9_qty_truthiness_fallback.1 (some "indisponível") (some "7")
      (Or.inl (by decide)),
   C9_qty_truthiness_fallback.1 (some "0 em estoque") (some "7")
      (Or.inr (by decide))⟩

/-! ### Claim C3 -/

/-- The keys written in light mode, in insertion order. -/
def lightFieldNames : List String :=
  ["product_id", "sku", "name", "price_text", "price_brl", "stock_label",
   "stock_tooltip", "available_qty", "price_min_brl"]

/-- The keys written only in full mode, in insertion order. -/
def fullExtraFieldNames : List String :=
  ["brand", "model", "color", "voltage", "ean", "ncm", "anatel", "inmetro",
   "weight_kg", "dimensions_cm", "categories", "flags", "description_html",
   "notices_html", "top_keywords", "title_suggestions", "video_url",
   "main_image", "main_image_full", "images"]

/-- C3, as stated, is false on the code: light mode also reads and
populates the detail fields `sku` and `name` (`modal_scraper.py` lines
34-35 run before the `if light` return), which are outside the claimed
price/stock/min-price set. -/
theorem C3_counterexample :
    ¬ (∀ k, k ∉ ["product_id", "price_text", "price_brl", "stock_label",
          "stock_tooltip", "available_qty", "price_min_brl"] →
        lookupRec (extractData pgFull 42 true) k = Option.none ∨
        lookupRec (extractData pgFull 42 true) k = some PyVal.none) := by
  intro h
  rcases h "sku" (by decide) with h' | h' <;> revert h' <;> decide

/-- C3 (amended): light mode populates exactly the identifier, canonical
SKU and name, price text/decimal, stock label/tooltip/quantity and
minimum price, leaving every remaining detail field absent from the
record, while an unknown-SKU product on the same page is fully
populated. -/
theorem C3_light_mode_fields :
    (∀ (page : ModalPage) (pid : Int),
      recKeys (extractData page pid true) = lightFieldNames) ∧
    (∀ (page : ModalPage) (pid : Int),
      recKeys (extractData page pid false) =
        lightFieldNames ++ fullExtraFieldNames) ∧
    (scrapePage ["S1"] [rowS1, rowS2]).map
        (fun recs => recs.map (fun r => lookupRec r "brand")) =
      Except.ok [Option.none, some (PyVal.str "BrandX")] ∧
    (scrapePage ["S1"] [rowS1, rowS2]).map
        (fun recs => recs.map (fun r =>
          (lookupRec r "price_brl", lookupRec r "_existing_sku"))) =
      Except.ok [(some (PyVal.dec ⟨123456, -2⟩), some (PyVal.bool true)),
                 (some (PyVal.dec ⟨123456, -2⟩), some (PyVal.bool false))] :=
  ⟨fun _ _ => rfl, fun _ _ => rfl, rfl, rfl⟩

/-! ### Claim C4 -/

/-- The listing-summary keys, in insertion order. -/
def summaryFieldNames : List String :=
  ["product_id", "listing_sku", "listing_thumbnail", "listing_thumbnail_full",
   "listing_name", "listing_color", "listing_model", "listing_brand",
   "listing_price_text", "listing_stock_badge", "listing_stock_tooltip",
   "listing_available_qty", "listing_badges"]

/-- C4, as stated, is false on the code: one walker run over a known-SKU
row and an unknown-SKU row produces records with different key sets —
the light record simply has no `brand` key (rather than a null one), and
an error record has only summary keys. -/
theorem C4_counterexample :
    (scrapePage ["S1"] [rowS1, rowS2]).map
        (fun recs => recs.map (fun r => (recKeys r).contains "brand")) =
      Except.ok [false, true] ∧
    (scrapePage [] [rowTimeout]).map
        (fun recs => recs.map (fun r =>
          ((recKeys r).contains "brand", (recKeys r).contains "scrape_error"))) =
      Except.ok [(false, true)] :=
  ⟨rfl, rfl⟩

/-- C4 (amended): records of the same kind share a fixed key list
independent of the page content — light extraction always yields the
light keys, full extraction the full keys, and a successful summary the
summary keys; within that shape, fields that could not be extracted are
present with a null value (e.g. the stock fields when the badge is
missing).  But light, full and error records do not share one key set:
fields outside a record's own shape are omitted, not null. -/
theorem C4_record_shape :
    (∀ (page : ModalPage) (pid : Int) (light : Bool),
      recKeys (extractData page pid light) =
        if light then lightFieldNames
        else lightFieldNames ++ fullExtraFieldNames) ∧
    (∀ (page : ModalPage) (pid : Int), page.stockBadge = Option.none →
      lookupRec (extractData page pid false) "stock_label" = some PyVal.none ∧
      lookupRec (extractData page pid false) "available_qty" = some PyVal.none) ∧
    (∀ (row : ListingRow) (summary : Record),
      extract_listing_summary row = Except.ok summary →
      recKeys summary = summaryFieldNames) := by
  refine ⟨?_, ?_, ?_⟩
  · intro page pid light
    cases light <;> rfl
  · intro page pid h
    constructor <;> simp [extractData, lookupRec, h]
  · intro row summary h
    unfold extract_listing_summary at h
    split at h
    · cases h
    · split at h
      · cases h
      · cases h
        rfl

/-- A page whose stock badge is absent. -/
def pgNoBadge : ModalPage :=
  { pgFull with stockBadge := Option.none }

theorem C3_light_mode_fields_witness :
    recKeys (extractData pgFull 42 true) = lightFieldNames ∧
    recKeys (extractData pgFull 42 false) =
      lightFieldNames ++ fullExtraFieldNames :=
  ⟨C3_light_mode_fields.1 pgFull 42, C3_light_mode_fields.2.1 pgFull 42⟩

theorem C4_record_shape_witness :
    recKeys (extractData pgNoBadge 42 false) =
      lightFieldNames ++ fullExtraFieldNames ∧
    lookupRec (extractData pgNoBadge 42 false) "stock_label" = some PyVal.none ∧
    recKeys summaryS3 = summaryFieldNames := by
  refine ⟨?_, ?_, ?_⟩
  · simpa using C4_record_shape.1 pgNoBadge 42 false
  · exact (C4_record_shape.2.1 pgNoBadge 42 rfl).1
  · exact C4_record_shape.2.2 rowTimeout summaryS3 rfl

/-! ### Character and token lemmas -/

theorem isDig_ne (c x : Char) (h : isDig c = true) (hx : isDig x = false) :
    c ≠ x := by
  intro e
  rw [e, hx] at h
  cases h

theorem isDig_val_le (c : Char) (h : isDig c = true) : c.toNat - 48 ≤ 9 := by
  simp only [isDig, Bool.and_eq_true, decide_eq_true_eq] at h
  omega

theorem digit_not_pyIsSpace (c : Char) (h : isDig c = true) :
    pyIsSpace c = false := by
  by_contra hs
  rw [Bool.not_eq_false] at hs
  have hne : ∀ x : Char, isDig x = false → ¬ c = x :=
    fun x hx => isDig_ne c x h hx
  simp only [pyIsSpace, Bool.or_eq_true, decide_eq_true_eq,
    hne ' ' (by decide), hne '\t' (by decide), hne '\n' (by decide),
    hne '\r' (by decide), hne '\u000B' (by decide), hne '\u000C' (by decide),
    hne '\u00A0' (by decide), or_self, or_false, false_or] at hs

theorem takeWhile_all (p : Char → Bool) (I : List Char)
    (hI : ∀ c ∈ I, p c = true) : I.takeWhile p = I := by
  induction I with
  | nil => rfl
  | cons c cs ih =>
    rw [List.takeWhile_cons, if_pos (hI c (by simp))]
    rw [ih (fun d hd => hI d (by simp [hd]))]

theorem takeWhile_all_append (p : Char → Bool) (I : List Char) (x : Char)
    (rest : List Char) (hI : ∀ c ∈ I, p c = true) (hx : p x = false) :
    (I ++ x :: rest).takeWhile p = I := by
  induction I with
  | nil => simp [List.takeWhile_cons, hx]
  | cons c cs ih =>
    rw [List.cons_append, List.takeWhile_cons, if_pos (hI c (by simp))]
    rw [ih (fun d hd => hI d (by simp [hd]))]

theorem foldl_digits_lt (l : List Char) (h : ∀ c ∈ l, isDig c = true) :
    ∀ acc : Nat,
      l.foldl (fun n c => n * 10 + (c.toNat - 48)) acc < (acc + 1) * 10 ^ l.length := by
  induction l with
  | nil =>
    intro acc
    simp only [List.foldl_nil, List.length_nil, pow_zero, mul_one]
    exact Nat.lt_succ_self acc
  | cons c cs ih =>
    intro acc
    have hv : c.toNat - 48 ≤ 9 := isDig_val_le c (h c (by simp))
    have step := ih (fun d hd => h d (by simp [hd])) (acc * 10 + (c.toNat - 48))
    calc (c :: cs).foldl (fun n c => n * 10 + (c.toNat - 48)) acc
        = cs.foldl (fun n c => n * 10 + (c.toNat - 48))
            (acc * 10 + (c.toNat - 48)) := rfl
      _ < (acc * 10 + (c.toNat - 48) + 1) * 10 ^ cs.length := step
      _ ≤ ((acc + 1) * 10) * 10 ^ cs.length :=
          Nat.mul_le_mul_right _ (by omega)
      _ = (acc + 1) * 10 ^ (c :: cs).length := by
          rw [List.length_cons, pow_succ]
          ring

theorem digitsToNat_lt (l : List Char) (h : ∀ c ∈ l, isDig c = true) :
    digitsToNat l < 10 ^ l.length := by
  have h0 := foldl_digits_lt l h 0
  rw [Nat.zero_add, one_mul] at h0
  exact h0

/-! ### `parse_quantity` lemmas -/

theorem pyStripL_subset (l : List Char) : ∀ c ∈ pyStripL l, c ∈ l := by
  intro c hc
  unfold pyStripL at hc
  rw [List.mem_reverse] at hc
  have hc2 := (List.dropWhile_sublist _).mem hc
  rw [List.mem_reverse] at hc2
  exact (List.dropWhile_sublist _).mem hc2

theorem reFirstMatch_none (cs : List Char) (h : ∀ c ∈ cs, isDig c = false) :
    reFirstMatch cs = Option.none := by
  induction cs with
  | nil => rfl
  | cons c cs ih =>
    rw [reFirstMatch, if_neg (by simp [h c (by simp)])]
    exact ih (fun d hd => h d (by simp [hd]))

theorem parseQuantityL_no_digit (cs : List Char)
    (h : ∀ c ∈ cs, isDig c = false) : parseQuantityL cs = Option.none := by
  unfold parseQuantityL
  by_cases he : cs.isEmpty
  · simp [he]
  · have hmap : ∀ c ∈ cs.map (fun c => if c = ' ' then ' ' else c),
        isDig c = false := by
      intro c hc
      rcases List.mem_map.mp hc with ⟨d, hd, rfl⟩
      split
      · decide
      · exact h d hd
    have hclean := reFirstMatch_none _
      (fun c hc => hmap c (pyStripL_subset _ c hc))
    simp only [he, if_false]
    unfold pqAfterClean
    rw [hclean]
    exact ite_self _

theorem pqOfMatch_le (l : List Char) (n : Nat)
    (h : pqOfMatch l = some n) : n ≤ QTY_MAX := by
  unfold pqOfMatch at h
  by_cases hde : l.isEmpty
  · rw [if_pos hde] at h; cases h
  · rw [if_neg hde] at h
    cases h
    exact Nat.min_le_right _ _

theorem pqAfterClean_le (cleaned : List Char) (n : Nat)
    (h : pqAfterClean cleaned = some n) : n ≤ QTY_MAX := by
  unfold pqAfterClean at h
  split at h
  · cases h
  · split at h
    · cases h
    · exact pqOfMatch_le _ _ h

theorem parse_quantity_le (s : Option String) (n : Nat)
    (h : parse_quantity s = some n) : n ≤ QTY_MAX := by
  cases s with
  | none => simp [parse_quantity] at h
  | some s =>
    rw [show parse_quantity (some s) = parseQuantityL s.data from rfl] at h
    unfold parseQuantityL at h
    by_cases he : s.data.isEmpty
    · rw [if_pos he] at h; cases h
    · rw [if_neg he] at h
      exact pqAfterClean_le _ _ h

theorem pyStripL_first_last (c : Char) (mid : List Char) (d : Char)
    (hcf : pyIsSpace c = false) (hdf : pyIsSpace d = false) :
    pyStripL (c :: (mid ++ [d])) = c :: (mid ++ [d]) := by
  unfold pyStripL
  rw [List.dropWhile_cons, if_neg (by simp [hcf])]
  have hrev : (c :: (mid ++ [d])).reverse = d :: (mid.reverse ++ [c]) := by
    simp [List.reverse_cons, List.reverse_append]
  rw [hrev, List.dropWhile_cons, if_neg (by simp [hdf]), ← hrev,
    List.reverse_reverse]

/-- One step of the group matcher when the four leading characters fit
the `[.\s]\d{3}` shape. -/
theorem matchGroups_step (s a b c : Char) (rest : List Char)
    (h : (isSep s && isDig a && isDig b && isDig c) = true) :
    matchGroups (s :: a :: b :: c :: rest) =
      match matchGroups rest with
      | some m => some (s :: a :: b :: c :: m)
      | Option.none => some [s, a, b, c] := by
  simp only [matchGroups]
  rw [if_pos h]

/-- The matcher on the cleaned text of the shape `D.DDD unidades`: the
first alternative of the pattern fires at the first digit and matches the
thousands-grouped token. -/
theorem reFirstMatch_thousands (a b c d : Char)
    (ha : isDig a = true) (hb : isDig b = true) (hc : isDig c = true)
    (hd : isDig d = true) :
    reFirstMatch [a, '.', b, c, d, ' ', 'u', 'n', 'i', 'd', 'a', 'd', 'e', 's'] =
      some [a, '.', b, c, d] := by
  have hinner : matchGroups [' ', 'u', 'n', 'i', 'd', 'a', 'd', 'e', 's'] =
      Option.none := by decide
  have hgroups : matchGroups ('.' :: b :: c :: d ::
      [' ', 'u', 'n', 'i', 'd', 'a', 'd', 'e', 's']) = some ['.', b, c, d] := by
    rw [matchGroups_step '.' b c d _ (by simp [isSep, hb, hc, hd]), hinner]
  have htw : [a, '.', b, c, d, ' ', 'u', 'n', 'i', 'd', 'a', 'd', 'e',
      's'].takeWhile isDig = [a] := by
    rw [List.takeWhile_cons, if_pos ha, List.takeWhile_cons,
      if_neg (by decide)]
  have halt : matchAlt1 [a, '.', b, c, d, ' ', 'u', 'n', 'i', 'd', 'a',
      'd', 'e', 's'] = some [a, '.', b, c, d] := by
    unfold matchAlt1
    rw [htw]
    have hmin : min 3 [a].length = 1 := by simp
    rw [hmin]
    have h1 : tryK 1 [a, '.', b, c, d, ' ', 'u', 'n', 'i', 'd', 'a', 'd',
        'e', 's'] =
        match matchGroups ('.' :: b :: c :: d ::
            [' ', 'u', 'n', 'i', 'd', 'a', 'd', 'e', 's']) with
        | some m => some ([a] ++ m)
        | Option.none => tryK 0 [a, '.', b, c, d, ' ', 'u', 'n', 'i', 'd',
            'a', 'd', 'e', 's'] := rfl
    rw [h1, hgroups]
    rfl
  simp only [reFirstMatch]
  rw [if_pos ha]
  unfold matchAt
  rw [halt]

/-- `_parse_quantity` on `"D.DDD unidades"` returns the grouped number
with its separator removed. -/
theorem parseQuantityL_thousands (a b c d : Char)
    (ha : isDig a = true) (hb : isDig b = true) (hc : isDig c = true)
    (hd : isDig d = true) :
    parseQuantityL [a, '.', b, c, d, ' ', 'u', 'n', 'i', 'd', 'a', 'd',
      'e', 's'] = some (digitsToNat [a, b, c, d]) := by
  have hne : ∀ x : Char, x ≠ '\u00A0' →
      (if x = '\u00A0' then ' ' else x) = x := fun x hx => if_neg hx
  have hmap : [a, '.', b, c, d, ' ', 'u', 'n', 'i', 'd', 'a', 'd', 'e',
      's'].map (fun x => if x = '\u00A0' then ' ' else x) =
      [a, '.', b, c, d, ' ', 'u', 'n', 'i', 'd', 'a', 'd', 'e', 's'] := by
    simp only [List.map_cons, List.map_nil,
      hne a (isDig_ne a _ ha (by decide)),
      hne b (isDig_ne b _ hb (by decide)),
      hne c (isDig_ne c _ hc (by decide)),
      hne d (isDig_ne d _ hd (by decide)),
      hne '.' (by decide), hne ' ' (by decide), hne 'u' (by decide),
      hne 'n' (by decide), hne 'i' (by decide), hne 'd' (by decide),
      hne 'a' (by decide), hne 'e' (by decide), hne 's' (by decide)]
  have hstrip : pyStripL [a, '.', b, c, d, ' ', 'u', 'n', 'i', 'd', 'a',
      'd', 'e', 's'] = [a, '.', b, c, d, ' ', 'u', 'n', 'i', 'd', 'a',
      'd', 'e', 's'] := by
    have hfl := pyStripL_first_last a
      ['.', b, c, d, ' ', 'u', 'n', 'i', 'd', 'a', 'd', 'e'] 's'
      (digit_not_pyIsSpace a ha) (by decide)
    simpa using hfl
  have hfilter : [a, '.', b, c, d].filter isDig = [a, b, c, d] := by
    rw [List.filter_cons_of_pos ha, List.filter_cons_of_neg (by decide),
      List.filter_cons_of_pos hb, List.filter_cons_of_pos hc,
      List.filter_cons_of_pos hd]
    rfl
  have hbound : digitsToNat [a, b, c, d] ≤ QTY_MAX := by
    have hlt := digitsToNat_lt [a, b, c, d] (by
      intro x hx
      rcases List.mem_cons.mp hx with rfl | hx
      · exact ha
      rcases List.mem_cons.mp hx with rfl | hx
      · exact hb
      rcases List.mem_cons.mp hx with rfl | hx
      · exact hc
      rcases List.mem_cons.mp hx with rfl | hx
      · exact hd
      · cases hx)
    have h4 : ([a, b, c, d] : List Char).length = 4 := rfl
    rw [h4] at hlt
    norm_num at hlt
    unfold QTY_MAX
    omega
  unfold parseQuantityL
  rw [if_neg (by simp), hmap, hstrip]
  unfold pqAfterClean
  rw [if_neg (by simp), reFirstMatch_thousands a b c d ha hb hc hd]
  show pqOfMatch ([a, '.', b, c, d].filter isDig) =
    some (digitsToNat [a, b, c, d])
  rw [hfilter]
  unfold pqOfMatch
  rw [if_neg (by simp), Nat.min_eq_left hbound]

/-! ### Claim C6 -/

/-- C6: on `"D.DDD unidades"` the parser returns the thousands-grouped
number with its separator removed; every returned value is clamped into
`[0, 1_000_000]` (being a natural number it is non-negative, and the
clamp caps it at `QTY_MAX`), values above one million yield exactly
`1000000`, and an input with no digit yields `None`. -/
theorem C6_quantity_thousands_and_clamp :
    (∀ a b c d : Char, isDig a = true → isDig b = true → isDig c = true →
      isDig d = true →
      parse_quantity (some (String.mk [a, '.', b, c, d, ' ', 'u', 'n', 'i',
        'd', 'a', 'd', 'e', 's'])) = some (digitsToNat [a, b, c, d])) ∧
    (∀ s n, parse_quantity s = some n → n ≤ QTY_MAX) ∧
    parse_quantity (some "1.234 unidades") = some 1234 ∧
    parse_quantity (some "1.234.567.890 unidades") = some QTY_MAX ∧
    (∀ s : String, (∀ c ∈ s.data, isDig c = false) →
      parse_quantity (some s) = Option.none) ∧
    parse_quantity Option.none = Option.none := by
  refine ⟨?_, parse_quantity_le, by decide, by decide, ?_, rfl⟩
  · intro a b c d ha hb hc hd
    exact parseQuantityL_thousands a b c d ha hb hc hd
  · intro s h
    exact parseQuantityL_no_digit s.data h

theorem C6_quantity_thousands_and_clamp_witness :
    parse_quantity (some "9.876 unidades") = some 9876 ∧
    parse_quantity (some "sem número") = Option.none ∧
    1000000 ≤ QTY_MAX := by
  refine ⟨?_, ?_, ?_⟩
  · exact C6_quantity_thousands_and_clamp.1 '9' '8' '7' '6'
      (by decide) (by decide) (by decide) (by decide)
  · exact C6_quantity_thousands_and_clamp.2.2.2.2.1 "sem número" (by decide)
  · exact C6_quantity_thousands_and_clamp.2.1 (some "1000000") 1000000
      (by decide)

/-! ### Decimal-normalisation lemmas -/

theorem removePair_not_mem (a b : Char) (l : List Char) (h : b ∉ l) :
    removePair a b l = l := by
  induction l with
  | nil => rfl
  | cons c cs ih =>
    cases cs with
    | nil => rfl
    | cons d ds =>
      have hd : ¬ (c = a ∧ d = b) := fun hcd => h (by simp [hcd.2])
      simp only [removePair]
      rw [if_neg hd, ih (fun hm => h (List.mem_cons_of_mem _ hm))]

theorem digit_money_pass (c : Char) (h : isDig c = true) :
    moneyKeep c = true := by
  have f1 := isDig_ne c '\u00A0' h (by decide)
  have f2 := isDig_ne c '.' h (by decide)
  have f3 := isDig_ne c ' ' h (by decide)
  apply decide_eq_true
  rintro (h' | h' | h') <;> [exact f1 h'; exact f2 h'; exact f3 h']

theorem filter_money_keep (l : List Char)
    (h : ∀ c ∈ l, isDig c = true) : l.filter moneyKeep = l := by
  apply List.filter_eq_self.mpr
  intro c hc
  exact digit_money_pass c (h c hc)

theorem map_comma_fixed (l : List Char) (h : ∀ c ∈ l, c ≠ ',') :
    l.map (fun c => if c = ',' then '.' else c) = l := by
  induction l with
  | nil => rfl
  | cons c cs ih =>
    rw [List.map_cons, if_neg (h c (by simp)),
      ih (fun d hd => h d (by simp [hd]))]

theorem parseSign_no_sign (c : Char) (r : List Char)
    (h1 : c ≠ '+') (h2 : c ≠ '-') : parseSign (c :: r) = (1, c :: r) := by
  simp [parseSign, h1, h2]

theorem parseDecimalCore_digits (sgn : Int) (D : List Char) (hne : D ≠ [])
    (hD : ∀ c ∈ D, isDig c = true) :
    parseDecimalCore sgn D = some ⟨sgn * (digitsToNat D : Int), 0⟩ := by
  unfold parseDecimalCore
  rw [takeWhile_all isDig D hD, List.drop_length]
  show (if D.isEmpty then Option.none
    else parseExpAndFinish sgn D 0 []) =
    some ⟨sgn * (digitsToNat D : Int), 0⟩
  rw [if_neg (by simp [hne])]
  unfold parseExpAndFinish
  norm_num

theorem parseDecimalCore_grouped (sgn : Int) (I F : List Char)
    (hne : I ≠ []) (hI : ∀ c ∈ I, isDig c = true)
    (hF : ∀ c ∈ F, isDig c = true) :
    parseDecimalCore sgn (I ++ '.' :: F) =
      some ⟨sgn * (digitsToNat (I ++ F) : Int), -(F.length : Int)⟩ := by
  unfold parseDecimalCore
  rw [takeWhile_all_append isDig I '.' F hI (by decide), List.drop_left]
  show (if I.isEmpty ∧ (F.takeWhile isDig).isEmpty then Option.none
    else parseExpAndFinish sgn (I ++ F.takeWhile isDig)
      (F.takeWhile isDig).length (F.drop (F.takeWhile isDig).length)) = _
  rw [takeWhile_all isDig F hF, List.drop_length,
    if_neg (fun hand => by simp [hne] at hand)]
  rfl

theorem normalizeMoney_digits_dot (I F : List Char)
    (hI : ∀ c ∈ I, isDig c = true) (hF : ∀ c ∈ F, isDig c = true) :
    normalizeMoney (I ++ '.' :: F) = I ++ F := by
  have hdol : '$' ∉ I ++ '.' :: F := by
    intro hm
    rcases List.mem_append.mp hm with hm | hm
    · exact absurd (hI _ hm) (by decide)
    · rcases List.mem_cons.mp hm with hm | hm
      · exact absurd hm (by decide)
      · exact absurd (hF _ hm) (by decide)
  unfold normalizeMoney
  rw [removePair_not_mem 'R' '$' _ hdol, removePair_not_mem 'r' '$' _ hdol,
    List.filter_append, filter_money_keep I hI,
    List.filter_cons_of_neg (by decide), filter_money_keep F hF]
  apply map_comma_fixed
  intro c hcm
  rcases List.mem_append.mp hcm with hm | hm
  · exact isDig_ne c ',' (hI _ hm) (by decide)
  · exact isDig_ne c ',' (hF _ hm) (by decide)

/-- `parse_decimal` on an explicitly-built string. -/
theorem parse_decimal_mk (l : List Char) :
    parse_decimal (some (String.mk l)) =
      if l.isEmpty then Option.none
      else parseDecimalLit (normalizeMoney l) := rfl

theorem removePair_cons_cons (a b c d : Char) (rest : List Char) :
    removePair a b (c :: d :: rest) =
      if c = a ∧ d = b then removePair a b rest
      else c :: removePair a b (d :: rest) := rfl

/-- The normalisation of a currency string `R$ D.DDD,DD`. -/
theorem normalizeMoney_currency (d1 d2 d3 d4 d5 d6 : Char)
    (h1 : isDig d1 = true) (h2 : isDig d2 = true) (h3 : isDig d3 = true)
    (h4 : isDig d4 = true) (h5 : isDig d5 = true) (h6 : isDig d6 = true) :
    normalizeMoney ['R', '$', ' ', d1, '.', d2, d3, d4, ',', d5, d6] =
      [d1, d2, d3, d4, '.', d5, d6] := by
  have hdol : '$' ∉ [' ', d1, '.', d2, d3, d4, ',', d5, d6] := by
    intro hm
    simp only [List.mem_cons, List.not_mem_nil, or_false] at hm
    rcases hm with hm | hm | hm | hm | hm | hm | hm | hm | hm
    · exact absurd hm (by decide)
    · rw [← hm] at h1; exact absurd h1 (by decide)
    · exact absurd hm (by decide)
    · rw [← hm] at h2; exact absurd h2 (by decide)
    · rw [← hm] at h3; exact absurd h3 (by decide)
    · rw [← hm] at h4; exact absurd h4 (by decide)
    · exact absurd hm (by decide)
    · rw [← hm] at h5; exact absurd h5 (by decide)
    · rw [← hm] at h6; exact absurd h6 (by decide)
  have hfil : [' ', d1, '.', d2, d3, d4, ',', d5, d6].filter moneyKeep =
      [d1, d2, d3, d4, ',', d5, d6] := by
    rw [List.filter_cons_of_neg (by decide),
      List.filter_cons_of_pos (digit_money_pass d1 h1),
      List.filter_cons_of_neg (by decide),
      List.filter_cons_of_pos (digit_money_pass d2 h2),
      List.filter_cons_of_pos (digit_money_pass d3 h3),
      List.filter_cons_of_pos (digit_money_pass d4 h4),
      List.filter_cons_of_pos (by decide),
      List.filter_cons_of_pos (digit_money_pass d5 h5),
      List.filter_cons_of_pos (digit_money_pass d6 h6)]
    rfl
  have hmapc : [d1, d2, d3, d4, ',', d5, d6].map
      (fun c => if c = ',' then '.' else c) =
      [d1, d2, d3, d4, '.', d5, d6] := by
    simp only [List.map_cons, List.map_nil,
      if_neg (isDig_ne d1 ',' h1 (by decide)),
      if_neg (isDig_ne d2 ',' h2 (by decide)),
      if_neg (isDig_ne d3 ',' h3 (by decide)),
      if_neg (isDig_ne d4 ',' h4 (by decide)),
      if_neg (isDig_ne d5 ',' h5 (by decide)),
      if_neg (isDig_ne d6 ',' h6 (by decide)),
      if_pos (rfl : (',' : Char) = ',')]
    rfl
  unfold normalizeMoney
  rw [removePair_cons_cons, if_pos ⟨rfl, rfl⟩,
    removePair_not_mem 'R' '$' _ hdol, removePair_not_mem 'r' '$' _ hdol,
    hfil, hmapc]

/-- `_parse_decimal` on a currency string `R$ D.DDD,DD`: the exact
six-digit mantissa with exponent `-2`. -/
theorem parse_decimal_currency (d1 d2 d3 d4 d5 d6 : Char)
    (h1 : isDig d1 = true) (h2 : isDig d2 = true) (h3 : isDig d3 = true)
    (h4 : isDig d4 = true) (h5 : isDig d5 = true) (h6 : isDig d6 = true) :
    parse_decimal (some (String.mk
        ['R', '$', ' ', d1, '.', d2, d3, d4, ',', d5, d6])) =
      some ⟨(digitsToNat [d1, d2, d3, d4, d5, d6] : Int), -2⟩ := by
  rw [parse_decimal_mk, if_neg (by simp),
    normalizeMoney_currency d1 d2 d3 d4 d5 d6 h1 h2 h3 h4 h5 h6]
  have hg := parseDecimalCore_grouped 1 [d1, d2, d3, d4] [d5, d6]
    (by simp)
    (by intro x hx; fin_cases hx <;> assumption)
    (by intro x hx; fin_cases hx <;> assumption)
  rw [one_mul] at hg
  have hlen : ((([d5, d6] : List Char).length : Int)) = 2 := by simp
  rw [hlen] at hg
  unfold parseDecimalLit
  rw [parseSign_no_sign d1 _ (isDig_ne d1 '+' h1 (by decide))
    (isDig_ne d1 '-' h1 (by decide))]
  exact hg

/-- `_parse_decimal` on digits-dot-digits input: the dot is removed as a
thousands separator, so the result is the concatenated digits with
exponent `0`. -/
theorem parse_decimal_dot (I F : List Char) (hne : I ≠ [])
    (hI : ∀ c ∈ I, isDig c = true) (hF : ∀ c ∈ F, isDig c = true) :
    parse_decimal (some (String.mk (I ++ '.' :: F))) =
      some ⟨(digitsToNat (I ++ F) : Int), 0⟩ := by
  obtain ⟨a, as, rfl⟩ := List.exists_cons_of_ne_nil hne
  rw [parse_decimal_mk, if_neg (by simp),
    normalizeMoney_digits_dot _ F hI hF, List.cons_append]
  have hall : ∀ x ∈ a :: (as ++ F), isDig x = true := by
    intro x hx
    rcases List.mem_cons.mp hx with rfl | hx
    · exact hI _ (List.mem_cons_self _ _)
    · rcases List.mem_append.mp hx with hx | hx
      · exact hI x (by simp [hx])
      · exact hF x hx
  have hg := parseDecimalCore_digits 1 (a :: (as ++ F)) (by simp) hall
  rw [one_mul] at hg
  unfold parseDecimalLit
  rw [parseSign_no_sign a _ (isDig_ne a '+' (hI a (by simp)) (by decide))
    (isDig_ne a '-' (hI a (by simp)) (by decide))]
  exact hg

/-- The exact rational value of a two-decimal-place `Dec`. -/
theorem Dec_toRat_centi (m : Int) : Dec.toRat ⟨m, -2⟩ = (m : Rat) / 100 := by
  unfold Dec.toRat
  rw [show ((-2 : Int)) = -(2 : Int) from rfl, zpow_neg, div_eq_mul_inv]
  norm_num

/-! ### Claim C7 -/

/-- C7: every currency string `R$ D.DDD,DD` parses to the exact
fixed-point decimal with the six digits as mantissa and exponent `-2` —
whose rational value is exactly `mantissa / 100`, with no binary floating
point anywhere in the representation — and empty or non-numeric input
parses to `None`.  The no-break-space variant of the example is also
covered. -/
theorem C7_currency_exact :
    (∀ d1 d2 d3 d4 d5 d6 : Char, isDig d1 = true → isDig d2 = true →
      isDig d3 = true → isDig d4 = true → isDig d5 = true →
      isDig d6 = true →
      parse_decimal (some (String.mk
          ['R', '$', ' ', d1, '.', d2, d3, d4, ',', d5, d6])) =
        some ⟨(digitsToNat [d1, d2, d3, d4, d5, d6] : Int), -2⟩) ∧
    (∀ m : Int, Dec.toRat ⟨m, -2⟩ = (m : Rat) / 100) ∧
    parse_decimal (some "R$ 1.234,56") = some ⟨123456, -2⟩ ∧
    Dec.toRat ⟨123456, -2⟩ = 123456 / 100 ∧
    parse_decimal (some "R$\u00A01.234,56") = some ⟨123456, -2⟩ ∧
    parse_decimal (some "") = Option.none ∧
    parse_decimal Option.none = Option.none ∧
    parse_decimal (some "abc") = Option.none := by
  refine ⟨parse_decimal_currency, Dec_toRat_centi, by decide, ?_, by decide,
    by decide, rfl, by decide⟩
  rw [Dec_toRat_centi]
  norm_num

theorem C7_currency_exact_witness :
    parse_decimal (some "R$ 9.876,54") = some ⟨987654, -2⟩ ∧
    Dec.toRat ⟨987654, -2⟩ = (987654 : Rat) / 100 := by
  constructor
  · exact C7_currency_exact.1 '9' '8' '7' '6' '5' '4' (by decide) (by decide)
      (by decide) (by decide) (by decide) (by decide)
  · exact C7_currency_exact.2.1 987654

/-! ### Claim C10 -/

/-- C10: `_parse_decimal` removes every `'.'` before parsing, so a lone
dot acts as a thousands separator, never as a decimal point: `"1.5"`
parses to the integer value 15, and in general digits-dot-digits input
parses to the concatenated digits with exponent 0; the full-mode
`weight_kg` field is computed by this same function. -/
theorem C10_dot_is_thousands_separator :
    parse_decimal (some "1.5") = some ⟨15, 0⟩ ∧
    Dec.toRat ⟨15, 0⟩ = 15 ∧
    (∀ I F : List Char, I ≠ [] → (∀ c ∈ I, isDig c = true) →
      (∀ c ∈ F, isDig c = true) →
      parse_decimal (some (String.mk (I ++ '.' :: F))) =
        some ⟨(digitsToNat (I ++ F) : Int), 0⟩) ∧
    (∀ (page : ModalPage) (pid : Int),
      lookupRec (extractData page pid false) "weight_kg" =
        some (optDec (parse_decimal (text_or_none page.weightText)))) := by
  refine ⟨by decide, ?_, parse_decimal_dot, ?_⟩
  · unfold Dec.toRat
    norm_num
  · intro page pid
    rfl

theorem C10_dot_is_thousands_separator_witness :
    parse_decimal (some "12.345") = some ⟨12345, 0⟩ ∧
    lookupRec (extractData pgFull 42 false) "weight_kg" =
      some (optDec (parse_decimal (some "1.5"))) := by
  constructor
  · exact C10_dot_is_thousands_separator.2.2.1 ['1', '2'] ['3', '4', '5']
      (by decide) (by decide) (by decide)
  · rw [C10_dot_is_thousands_separator.2.2.2 pgFull 42]
    rfl

end ScrapObamix
